import Mathlib

/-!
Verification development for the IPython message-spec adapter
(`IPython/kernel/adapter.py`): a shallow embedding of the module's data
model (messages as string-keyed, insertion-ordered dictionaries of
JSON-like values) and of its operations (`code_to_line`,
`_version_str_to_list`, the `Adapter` pipeline, the `V5toV4` and `V4toV5`
content transforms, and the `adapt` entry point), together with theorems
settling the specification's claims about them.

Modelling conventions:
* Python dicts become association lists (`Dict`) preserving insertion
  order; `d[k]` on a missing key, and other Python exceptions, become
  `Except.error` with a message naming the exception.
* Python values occurring in messages become `JValue`.  Values outside
  this grammar (arbitrary Python objects) are not representable; the two
  places whose behaviour depends on such values — `json.dumps` and
  `json.loads` in the `display_data` transforms, and the external
  `token_at_cursor` resolver — are taken as parameters (`dumps`, `loads`,
  `tok`), so theorems quantify over every possible behaviour of them.
* Python `int(string)` is modelled for ASCII input: optional surrounding
  whitespace, an optional sign, and digits optionally separated by single
  underscores (PEP 515); non-ASCII digits are out of scope.
-/

/-- A JSON-like Python value as it occurs in protocol messages. -/
inductive JValue where
  | null
  | bool (b : Bool)
  | int (n : Int)
  | str (s : String)
  | list (xs : List JValue)
  | obj (d : List (String × JValue))

/-- A Python dict with string keys, in insertion order. -/
abbrev Dict := List (String × JValue)

/-- `d.get(k)` / `d[k]` lookup (first binding wins; real dicts have unique keys). -/
def dget : Dict → String → Option JValue
  | [], _ => none
  | p :: rest, k => if p.1 = k then some p.2 else dget rest k

/-- `k in d`. -/
def dmem (d : Dict) (k : String) : Bool :=
  (dget d k).isSome

/-- Replace the value bound to `k` in place, keeping the binding's position. -/
def dreplace : Dict → String → JValue → Dict
  | [], _, _ => []
  | p :: rest, k, v =>
      if p.1 = k then (k, v) :: dreplace rest k v else p :: dreplace rest k v

/-- `d[k] = v`: replace in place if the key exists (keeping its position),
otherwise append the new binding. -/
def dset (d : Dict) (k : String) (v : JValue) : Dict :=
  if dmem d k then dreplace d k v else d ++ [(k, v)]

/-- `d.pop(k, default)` discarding the value: remove the binding of `k`. -/
def dpop : Dict → String → Dict
  | [], _ => []
  | p :: rest, k => if p.1 = k then dpop rest k else p :: dpop rest k

/-- `d.setdefault(k, v)`. -/
def dsetdefault (d : Dict) (k : String) (v : JValue) : Dict :=
  if dmem d k then d else d ++ [(k, v)]

/-- `d[k]` as a fallible read (`KeyError` when absent). -/
def dgetE (d : Dict) (k : String) : Except String JValue :=
  match dget d k with
  | some v => .ok v
  | none => .error ("KeyError: " ++ k)

/-- `d.pop(k)` with no default: value and remaining dict, `KeyError` when absent. -/
def dpopE (d : Dict) (k : String) : Except String (JValue × Dict) :=
  match dget d k with
  | some v => .ok (v, dpop d k)
  | none => .error ("KeyError: " ++ k)

/-- `d.pop(k, v0)`: value (or default) and remaining dict. -/
def dpopD (d : Dict) (k : String) (v0 : JValue) : JValue × Dict :=
  match dget d k with
  | some v => (v, dpop d k)
  | none => (v0, d)

/-- Read a string value out of a dict, `none` when absent or not a string. -/
def dgetStr (d : Dict) (k : String) : Option String :=
  match dget d k with
  | some (JValue.str s) => some s
  | _ => none

/-! ### Python primitives used by the adapter -/

/-- Python truthiness of a `JValue` (`if value:`). -/
def truthy : JValue → Bool
  | .null => false
  | .bool b => b
  | .int n => n ≠ 0
  | .str s => s ≠ ""
  | .list xs => ¬ xs.isEmpty
  | .obj d => ¬ d.isEmpty

/-- Python `int`/`bool` as an integer (Python `bool` is an `int` subtype),
`none` for values that raise `TypeError` in arithmetic. -/
def asInt : JValue → Option Int
  | .int n => some n
  | .bool b => some (if b then 1 else 0)
  | _ => none

/-- `len(v)` for sized values, `TypeError` otherwise. -/
def pyLen : JValue → Except String Int
  | .str s => .ok s.length
  | .list xs => .ok xs.length
  | .obj d => .ok d.length
  | _ => .error "TypeError: object has no len()"

/-- Characters Python's `int()` strips around a numeric literal (ASCII part). -/
def isPySpace (c : Char) : Bool :=
  c = ' ' ∨ c = '\t' ∨ c = '\n' ∨ c = '\r' ∨ c = '\x0b' ∨ c = '\x0c'

/-- Digit run of a Python integer literal after the first digit: digits,
optionally separated by single underscores (PEP 515); no trailing underscore. -/
def pyDigitsAux : List Char → Nat → Option Nat
  | [], acc => some acc
  | '_' :: c :: rest, acc =>
      if c.isDigit then pyDigitsAux rest (acc * 10 + (c.toNat - 48)) else none
  | ['_'], _ => none
  | c :: rest, acc =>
      if c.isDigit then pyDigitsAux rest (acc * 10 + (c.toNat - 48)) else none

/-- Digit run of a Python integer literal: leading digit, then `pyDigitsAux`. -/
def pyDigits : List Char → Option Nat
  | [] => none
  | c :: rest => if c.isDigit then pyDigitsAux rest (c.toNat - 48) else none

/-- Python `int(s)` on an ASCII string: strip whitespace, optional sign,
digit run; `none` models `ValueError`. -/
def pyIntParse (s : String) : Option Int :=
  let t := ((s.toList.dropWhile isPySpace).reverse.dropWhile isPySpace).reverse
  match t with
  | '-' :: rest => (pyDigits rest).map (fun n => -(n : Int))
  | '+' :: rest => (pyDigits rest).map (fun n => (n : Int))
  | rest => (pyDigits rest).map (fun n => (n : Int))

/-- `str(v)` as used by `".".join(map(str, seq))`.  Container renderings are a
fixed deterministic choice standing in for Python's `repr`-based forms. -/
def pyStr : JValue → String
  | .null => "None"
  | .bool b => if b then "True" else "False"
  | .int n => toString n
  | .str s => s
  | .list _ => "<list>"
  | .obj _ => "<dict>"

/-- Iterating a value, as `map(str, v)` does: a list yields its elements, a
string its characters, a dict its keys; anything else raises `TypeError`. -/
def pyIterStrs : JValue → Except String (List String)
  | .list xs => .ok (xs.map pyStr)
  | .str s => .ok (s.toList.map (fun ch => String.mk [ch]))
  | .obj d => .ok (d.map (fun p => p.1))
  | _ => .error "TypeError: object is not iterable"

/-- `v[0]`: first element of a list or first character of a string;
`IndexError` when empty, dict lookup (`KeyError`, string keys only here)
on a dict, `TypeError` otherwise. -/
def pyIndex0 : JValue → Except String JValue
  | .list (x :: _) => .ok x
  | .list [] => .error "IndexError: list index out of range"
  | .str s =>
      match s.toList with
      | c :: _ => .ok (.str (String.mk [c]))
      | [] => .error "IndexError: string index out of range"
  | .obj _ => .error "KeyError: 0"
  | _ => .error "TypeError: object is not subscriptable"

/-- The number of elements `v[:n]` keeps from a sequence of length `len`
(negative `n` counts from the end, both ends clipped). -/
def pySliceLen (len : Nat) (n : Int) : Nat :=
  if n < 0 then ((len : Int) + n).toNat else min n.toNat len

/-- `v[:n]` on a string or list, `TypeError` otherwise. -/
def pySlice : JValue → Int → Except String JValue
  | .str s, n => .ok (.str (String.mk (s.toList.take (pySliceLen s.length n))))
  | .list xs, n => .ok (.list (xs.take (pySliceLen xs.length n)))
  | _, _ => .error "TypeError: object is not subscriptable"

/-- `sep.join(lines)` demands every element be a string (`TypeError` otherwise);
this extracts the strings. -/
def strValues : List JValue → Except String (List String)
  | [] => .ok []
  | JValue.str s :: rest => (strValues rest).map (fun l => s :: l)
  | _ :: _ => .error "TypeError: sequence item: expected str instance"

/-- Python `s.split(sep)` for a one-character separator: the segment being
built is accumulated in reverse in `acc`.  `"".split('.')` is `[""]`. -/
def splitOnCharAux (sep : Char) : List Char → List Char → List String
  | [], acc => [String.mk acc.reverse]
  | c :: rest, acc =>
      if c = sep then String.mk acc.reverse :: splitOnCharAux sep rest []
      else splitOnCharAux sep rest (c :: acc)

/-- Python `s.split(sep)` for a one-character separator. -/
def pySplit (s : String) (sep : Char) : List String :=
  splitOnCharAux sep s.toList []

/-- `sep.join(parts)`. -/
def joinWith (sep : String) : List String → String
  | [] => ""
  | [x] => x
  | x :: rest => x ++ sep ++ joinWith sep rest

/-- Python `s.startswith(pre)`. -/
def pyStartsWith (s pre : String) : Bool :=
  pre.toList.isPrefixOf s.toList

/-! ### `_version_str_to_list` and the version round trip -/

/-- `_version_str_to_list`: split on `.`, keep the segments `int()` accepts. -/
def _version_str_to_list (version : String) : List Int :=
  (pySplit version '.').filterMap pyIntParse

/-- `".".join(map(str, v))` on an integer-segment list, as
`V4toV5.kernel_info_reply` rebuilds dotted version strings. -/
def joinVersionList (v : List Int) : String :=
  joinWith "." (v.map toString)

/-- Modelled from the spec's words (for comparison with the code's round
trip): "`s` with its non-numeric dot-separated segments removed". -/
def removeNonNumericSegments (s : String) : String :=
  joinWith "." ((pySplit s '.').filter (fun p => (pyIntParse p).isSome))

/-! ### `code_to_line` -/

/-- Python `str.splitlines(True)` restricted to the `\n`, `\r\n`, `\r`
terminators: lines with their terminators kept.  `acc` holds the current
line's characters in reverse. -/
def splitlinesAux : List Char → List Char → List String
  | [], [] => []
  | [], acc => [String.mk acc.reverse]
  | '\n' :: rest, acc => String.mk (('\n' :: acc).reverse) :: splitlinesAux rest []
  | '\r' :: '\n' :: rest, acc => String.mk (('\n' :: '\r' :: acc).reverse) :: splitlinesAux rest []
  | '\r' :: rest, acc => String.mk (('\r' :: acc).reverse) :: splitlinesAux rest []
  | c :: rest, acc => splitlinesAux rest (c :: acc)

/-- `code.splitlines(True)`. -/
def splitlinesTrue (s : String) : List String :=
  splitlinesAux s.toList []

/-- The loop of `code_to_line`: subtract each line's length while the
remaining offset exceeds it; the loop variable `line` ends on the line where
the loop stopped (or the last line when it ran out). -/
def codeToLineAux : List String → Int → Option (String × Int)
  | [], _ => none
  | [l], pos => if pos > (l.length : Int) then some (l, pos - l.length) else some (l, pos)
  | l :: rest, pos =>
      if pos > (l.length : Int) then codeToLineAux rest (pos - l.length) else some (l, pos)

/-- `code_to_line(code, cursor_pos)`.  On empty code the Python loop never
binds `line` and the `return` raises `UnboundLocalError`. -/
def code_to_line (code : String) (cursor_pos : Int) : Except String (String × Int) :=
  match codeToLineAux (splitlinesTrue code) cursor_pos with
  | some r => .ok r
  | none => .error "UnboundLocalError: local variable referenced before assignment"

/-- The last line of a split, `""` for an empty split (unreachable in use). -/
def lastLine : List String → String
  | [] => ""
  | [l] => l
  | _ :: rest => lastLine rest

/-! ### Messages and the `Adapter` pipeline -/

/-- A protocol message: its `header`, `content` and `metadata` dicts, plus the
denormalized top-level `msg['msg_type']` entry (`none` when that key is
absent).  Contents that are not dicts make every type-specific transform
raise at once and are not represented. -/
structure Message where
  header : Dict
  content : Dict
  metadata : Dict
  msgType : Option JValue

/-- `old-name ↦ new-name` lookup in a `msg_type_map`. -/
def lookupRename (m : List (String × String)) (t : String) : Option String :=
  (m.find? (fun p => p.1 = t)).map (fun p => p.2)

/-- The message type after `update_msg_type`: renamed when in the map. -/
def applyRename (m : List (String × String)) (t : String) : String :=
  (lookupRename m t).getD t

/-- `applyRename` lifted to the optional header entry (non-strings pass). -/
def renameJ (m : List (String × String)) : Option JValue → Option JValue
  | some (JValue.str t) => some (JValue.str (applyRename m t))
  | v => v

/-- `Adapter.update_msg_type`: when `header['msg_type']` is in the rename map,
set the header entry and the top-level copy to the mapped name together.  A
missing key is a `KeyError`; an unhashable value makes the `in` test raise. -/
def Adapter.update_msg_type (tm : List (String × String)) (msg : Message) :
    Except String Message :=
  match dget msg.header "msg_type" with
  | none => .error "KeyError: msg_type"
  | some (JValue.str t) =>
      match lookupRename tm t with
      | some t2 => .ok { msg with
          header := dset msg.header "msg_type" (JValue.str t2),
          msgType := some (JValue.str t2) }
      | none => .ok msg
  | some (JValue.list _) => .error "TypeError: unhashable type"
  | some (JValue.obj _) => .error "TypeError: unhashable type"
  | some _ => .ok msg

/-- The message `Adapter.__call__` produces on a reply whose `status` is
`error` or `aborted`: `self.handle_reply_status_error(msg)`.  That method is
defined as `def handle_reply_status_error(msg)` — without `self` — so the
bound-method call passes two arguments to a one-parameter function. -/
def handleReplyStatusErrorCall : Except String Message :=
  .error "TypeError: handle_reply_status_error() takes 1 positional argument but 2 were given"

/-- `Adapter.__call__`: update the header (`update_metadata` is the identity
in the base class and both subclasses), rename the message type, then
dispatch on the post-rename `header['msg_type']` to the adapter's content
transform of that name (each concrete handler only rewrites
`msg['content']`, so handlers are modelled as `Dict → Except String Dict`);
pass through when none exists.  `getattr` on a non-string name raises.
Dynamic `getattr` could also reach the pipeline's own methods for
pathological message types; the model restricts dispatch to the content
transforms. -/
def Adapter.call (uh : Message → Message) (tm : List (String × String))
    (handlers : List (String × (Dict → Except String Dict))) (msg : Message) :
    Except String Message :=
  match Adapter.update_msg_type tm (uh msg) with
  | .error e => .error e
  | .ok m =>
    match dget m.header "msg_type" with
    | some (JValue.str t) =>
      match (handlers.find? (fun p => p.1 = t)).map (fun p => p.2) with
      | none => .ok m
      | some f =>
        match dget m.content "status" with
        | some (JValue.str "error") => handleReplyStatusErrorCall
        | some (JValue.str "aborted") => handleReplyStatusErrorCall
        | _ => (f m.content).map (fun c => { m with content := c })
    | some _ => .error "TypeError: attribute name must be string"
    | none => .error "KeyError: msg_type"

namespace V5toV4

def version : String := "4.1"

def msg_type_map : List (String × String) :=
  [("execute_result", "pyout"),
   ("execute_input", "pyin"),
   ("error", "pyerr"),
   ("inspect_request", "object_info_request"),
   ("inspect_reply", "object_info_reply")]

/-- `update_header`: drop the `version` key. -/
def update_header (msg : Message) : Message :=
  { msg with header := dpop msg.header "version" }

/-- `content[key] = _version_str_to_list(content[key])` when the key exists;
a non-string value makes `.split` raise. -/
def verListify (c : Dict) (k : String) : Except String Dict :=
  match dget c k with
  | none => .ok c
  | some (JValue.str s) =>
      .ok (dset c k (JValue.list ((_version_str_to_list s).map JValue.int)))
  | some _ => .error "AttributeError: object has no attribute split"

/-- `kernel_info_reply` (v5→v4).  Note the two misspelled keys taken verbatim
from the source: `content.pop('implmentation_version')` (which raises
`KeyError` whenever the branch is taken and no key of that misspelled name
exists) and `content.setdefault("implmentation", content['language'])`. -/
def kernel_info_reply (c : Dict) : Except String Dict := do
  let c := dpop c "banner"
  let c ← verListify c "language_version"
  let c ← verListify c "protocol_version"
  let (impl, c) := dpopD c "implementation" (JValue.str "")
  let isIpython : Bool := match impl with
    | JValue.str s => s = "ipython"
    | _ => false
  let c ← if isIpython && dmem c "implementation_version" then do
      let (v, c) ← dpopE c "implmentation_version"
      pure (dset c "ipython_version" v)
    else pure c
  let c := dpop c "implementation_version"
  match dget c "language" with
  | none => .error "KeyError: language"
  | some lang => .ok (dsetdefault c "implmentation" lang)

/-- `execute_request` (v5→v4). -/
def execute_request (c : Dict) : Except String Dict :=
  .ok (dsetdefault c "user_variables" (JValue.list []))

/-- `execute_reply` (v5→v4). -/
def execute_reply (c : Dict) : Except String Dict :=
  .ok (dsetdefault c "user_variables" (JValue.obj []))

/-- `complete_request` (v5→v4): project the cursor and rebuild the content. -/
def complete_request (c : Dict) : Except String Dict := do
  let code ← dgetE c "code"
  let pos ← dgetE c "cursor_pos"
  match code, asInt pos with
  | JValue.str s, some p => do
      let (line, p2) ← code_to_line s p
      .ok [("text", JValue.str ""), ("line", JValue.str line),
           ("block", JValue.null), ("cursor_pos", JValue.int p2)]
  | JValue.str _, none => .error "TypeError: not supported between instances"
  | _, _ => .error "AttributeError: object has no attribute splitlines"

/-- `complete_reply` (v5→v4): `matched_text = matches[0][:cursor_end - cursor_start]`,
dropping `cursor_start`, `cursor_end` and `metadata`. -/
def complete_reply (c : Dict) : Except String Dict := do
  let (cs, c) ← dpopE c "cursor_start"
  let (ce, c) ← dpopE c "cursor_end"
  match asInt ce, asInt cs with
  | some e, some s => do
      let matchLen := e - s
      let ms ← dgetE c "matches"
      let first ← pyIndex0 ms
      let matched ← pySlice first matchLen
      let c := dset c "matched_text" matched
      .ok (dpop c "metadata")
  | _, _ => .error "TypeError: unsupported operand type for -"

/-- `object_info_request` (v5→v4), using the external `token_at_cursor`
resolver `tok`; `line` from `code_to_line` is computed and discarded, but its
errors propagate. -/
def object_info_request (tok : String → Int → String) (c : Dict) :
    Except String Dict := do
  let code ← dgetE c "code"
  let pos ← dgetE c "cursor_pos"
  match code, asInt pos with
  | JValue.str s, some p => do
      let _ ← code_to_line s p
      let dl ← dgetE c "detail_level"
      .ok [("oname", JValue.str (tok s p)), ("detail_level", dl)]
  | JValue.str _, none => .error "TypeError: not supported between instances"
  | _, _ => .error "AttributeError: object has no attribute splitlines"

/-- `object_info_reply` (v5→v4): the fixed lossy stub. -/
def object_info_reply (_c : Dict) : Except String Dict :=
  .ok [("found", JValue.bool false), ("name", JValue.str "unknown")]

/-- `display_data` (v5→v4), with `json.dumps` as the parameter `dumps`
(`none` models a raised exception, caught by the `try`).  For a
non-dict `data`, the `in` test runs outside the `try` (raising on
non-iterables) while the subscripting runs inside it (so strings and lists
fall through silently). -/
def display_data (dumps : JValue → Option String) (c : Dict) :
    Except String Dict := do
  let c := dsetdefault c "source" (JValue.str "display")
  let data ← dgetE c "data"
  match data with
  | JValue.obj d =>
      if dmem d "application/json" then
        match dget d "application/json" with
        | some v =>
            match dumps v with
            | some s =>
                .ok (dset c "data" (JValue.obj (dset d "application/json" (JValue.str s))))
            | none => .ok c
        | none => .ok c
      else .ok c
  | JValue.str _ => .ok c
  | JValue.list _ => .ok c
  | _ => .error "TypeError: argument is not iterable"

/-- `input_request` (v5→v4): drop the `password` flag. -/
def input_request (c : Dict) : Except String Dict :=
  .ok (dpop c "password")

/-- The v5→v4 content transforms under their dispatch names (the two
inspect handlers are registered under their post-rename v4 names). -/
def handlers (tok : String → Int → String) (dumps : JValue → Option String) :
    List (String × (Dict → Except String Dict)) :=
  [("kernel_info_reply", kernel_info_reply),
   ("execute_request", execute_request),
   ("execute_reply", execute_reply),
   ("complete_request", complete_request),
   ("complete_reply", complete_reply),
   ("object_info_request", object_info_request tok),
   ("object_info_reply", object_info_reply),
   ("display_data", display_data dumps),
   ("input_request", input_request)]

/-- The `V5toV4` adapter instance applied to a message. -/
def call (tok : String → Int → String) (dumps : JValue → Option String)
    (msg : Message) : Except String Message :=
  Adapter.call update_header msg_type_map (handlers tok dumps) msg

end V5toV4

namespace V4toV5

def version : String := "5.0"

/-- The inverted rename table (`{v: k for k, v in V5toV4.msg_type_map.items()}`). -/
def msg_type_map : List (String × String) :=
  [("pyout", "execute_result"),
   ("pyin", "execute_input"),
   ("pyerr", "error"),
   ("object_info_request", "inspect_request"),
   ("object_info_reply", "inspect_reply")]

/-- `update_header`: stamp the target version string. -/
def update_header (msg : Message) : Message :=
  { msg with header := dset msg.header "version" (JValue.str version) }

/-- `content[key] = ".".join(map(str, content[key]))` when the key exists. -/
def verStringify (c : Dict) (k : String) : Except String Dict :=
  match dget c k with
  | none => .ok c
  | some v => do
      let parts ← pyIterStrs v
      .ok (dset c k (JValue.str (joinWith "." parts)))

/-- `kernel_info_reply` (v4→v5). -/
def kernel_info_reply (c : Dict) : Except String Dict := do
  let c ← verStringify c "language_version"
  let c ← verStringify c "protocol_version"
  let c ← verStringify c "ipython_version"
  let lang ← dgetE c "language"
  match lang with
  | JValue.str ls => do
      let c ← if pyStartsWith ls "python" && dmem c "ipython_version" then do
          let c := dset c "implementation" (JValue.str "ipython")
          let (v, c) ← dpopE c "ipython_version"
          pure (dset c "implementation_version" v)
        else pure c
      .ok (dset c "banner" (JValue.str ""))
  | _ => .error "AttributeError: object has no attribute startswith"

/-- `execute_request` (v4→v5): fold the legacy `user_variables` list into
`user_expressions`, each variable as both key and expression.  Iterating a
string yields its characters, a dict its keys; non-string entries are not
representable as keys of the string-keyed dict model. -/
def execute_request (c : Dict) : Except String Dict := do
  let (uv, c) := dpopD c "user_variables" (JValue.list [])
  let c := dsetdefault c "user_expressions" (JValue.obj [])
  let ue ← dgetE c "user_expressions"
  match uv, ue with
  | JValue.list xs, JValue.obj d => do
      let d ← xs.foldlM (fun d x =>
          match x with
          | JValue.str s => pure (dset d s (JValue.str s))
          | _ => Except.error "TypeError: key not representable (model: string keys only)") d
      .ok (dset c "user_expressions" (JValue.obj d))
  | JValue.str s, JValue.obj d =>
      let d := s.toList.foldl (fun d ch =>
          dset d (String.mk [ch]) (JValue.str (String.mk [ch]))) d
      .ok (dset c "user_expressions" (JValue.obj d))
  | JValue.obj kv, JValue.obj d =>
      let d := kv.foldl (fun d p => dset d p.1 (JValue.str p.1)) d
      .ok (dset c "user_expressions" (JValue.obj d))
  | JValue.list _, _ => .error "TypeError: object does not support item assignment"
  | _, _ => .error "TypeError: object is not iterable"

/-- `execute_reply` (v4→v5): merge a legacy truthy `user_variables` mapping
into `user_expressions`. -/
def execute_reply (c : Dict) : Except String Dict := do
  let c := dsetdefault c "user_expressions" (JValue.obj [])
  let ue ← dgetE c "user_expressions"
  let (uv, c) := dpopD c "user_variables" (JValue.obj [])
  if truthy uv then
    match ue, uv with
    | JValue.obj d, JValue.obj d2 =>
        .ok (dset c "user_expressions"
          (JValue.obj (d2.foldl (fun acc p => dset acc p.1 p.2) d)))
    | JValue.obj _, _ => .error "TypeError: object is not iterable"
    | _, _ => .error "AttributeError: object has no attribute update"
  else .ok c

/-- `complete_request` (v4→v5): rename `line` to `code`. -/
def complete_request (c : Dict) : Except String Dict := do
  let line ← dgetE c "line"
  let pos ← dgetE c "cursor_pos"
  .ok [("code", line), ("cursor_pos", pos)]

/-- `complete_reply` (v4→v5): `cursor_start = -len(matched_text)` as the
relative-to-cursor sentinel, `cursor_end = None`. -/
def complete_reply (c : Dict) : Except String Dict := do
  let ms ← dgetE c "matches"
  let mt ← dgetE c "matched_text"
  let n ← pyLen mt
  .ok [("status", JValue.str "ok"), ("matches", ms),
       ("cursor_start", JValue.int (-n)), ("cursor_end", JValue.null),
       ("metadata", JValue.obj [])]

/-- `inspect_request` (v4→v5). -/
def inspect_request (c : Dict) : Except String Dict := do
  let name ← dgetE c "oname"
  let n ← pyLen name
  let dl ← dgetE c "detail_level"
  .ok [("code", name), ("cursor_pos", JValue.int n), ("detail_level", dl)]

/-- The keys tried (in order, first truthy wins) for the definition part of
`inspect_reply`'s `text/plain`. -/
def inspectDefKeys : List String := ["call_def", "init_definition", "definition"]

/-- The keys tried for the docstring part of `inspect_reply`'s `text/plain`. -/
def inspectDocKeys : List String := ["call_docstring", "init_docstring", "docstring"]

/-- The `for key in (...): if content.get(key, False): lines.append(...); break`
loop: the first truthy value among the keys. -/
def firstTruthy (c : Dict) : List String → Option JValue
  | [] => none
  | k :: rest =>
      match dget c k with
      | some v => if truthy v then some v else firstTruthy c rest
      | none => firstTruthy c rest

/-- `inspect_reply` (v4→v5). -/
def inspect_reply (c : Dict) : Except String Dict := do
  let found ← dgetE c "found"
  let name ← dgetE c "name"
  if truthy found then do
    let lines := (firstTruthy c inspectDefKeys).toList ++ (firstTruthy c inspectDocKeys).toList
    let lines := if lines.isEmpty then [JValue.str "<empty docstring>"] else lines
    let strs ← strValues lines
    .ok [("status", JValue.str "ok"), ("found", found), ("name", name),
         ("data", JValue.obj [("text/plain", JValue.str (joinWith "\n" strs))]),
         ("metadata", JValue.obj [])]
  else
    .ok [("status", JValue.str "ok"), ("found", found), ("name", name),
         ("data", JValue.obj []), ("metadata", JValue.obj [])]

/-- `display_data` (v4→v5), with `json.loads` as the parameter `loads`
(`none` models a raised exception, caught by the `try`; so is the
`TypeError` of calling `json.loads` on a non-string). -/
def display_data (loads : String → Option JValue) (c : Dict) :
    Except String Dict := do
  let c := dpop c "source"
  let data ← dgetE c "data"
  match data with
  | JValue.obj d =>
      if dmem d "application/json" then
        match dget d "application/json" with
        | some (JValue.str s) =>
            match loads s with
            | some j => .ok (dset c "data" (JValue.obj (dset d "application/json" j)))
            | none => .ok c
        | _ => .ok c
      else .ok c
  | JValue.str _ => .ok c
  | JValue.list _ => .ok c
  | _ => .error "TypeError: argument is not iterable"

/-- `input_request` (v4→v5): default a missing `password` flag to `False`. -/
def input_request (c : Dict) : Except String Dict :=
  .ok (dsetdefault c "password" (JValue.bool false))

/-- The v4→v5 content transforms under their dispatch names. -/
def handlers (loads : String → Option JValue) :
    List (String × (Dict → Except String Dict)) :=
  [("kernel_info_reply", kernel_info_reply),
   ("execute_request", execute_request),
   ("execute_reply", execute_reply),
   ("complete_request", complete_request),
   ("complete_reply", complete_reply),
   ("inspect_request", inspect_request),
   ("inspect_reply", inspect_reply),
   ("display_data", display_data loads),
   ("input_request", input_request)]

/-- The `V4toV5` adapter instance applied to a message. -/
def call (loads : String → Option JValue) (msg : Message) :
    Except String Message :=
  Adapter.call update_header msg_type_map (handlers loads) msg

end V4toV5

/-! ### Registry and entry point -/

/-- The direction of a registered adapter (for statements that quantify over
"any adapter"). -/
inductive Direction where
  | v5to4
  | v4to5

/-- Run the registered adapter of the given direction. -/
def runAdapter (dir : Direction) (tok : String → Int → String)
    (dumps : JValue → Option String) (loads : String → Option JValue)
    (msg : Message) : Except String Message :=
  match dir with
  | .v5to4 => V5toV4.call tok dumps msg
  | .v4to5 => V4toV5.call loads msg

/-- The `adapters` registry: one adapter per `(from, to)` major-version pair. -/
def adaptersList (tok : String → Int → String) (dumps : JValue → Option String)
    (loads : String → Option JValue) :
    List ((Int × Int) × (Message → Except String Message)) :=
  [((5, 4), V5toV4.call tok dumps),
   ((4, 5), V4toV5.call loads)]

/-- The source major version `adapt` derives from the header:
`int(header['version'].split('.')[0])` when the key exists (a `ValueError`
when the leading segment is not an integer, an `AttributeError` when the
value is not a string), else the legacy default `4`. -/
def sourceVersion (msg : Message) : Except String Int :=
  match dget msg.header "version" with
  | some (JValue.str s) =>
      match pyIntParse ((pySplit s '.').headD "") with
      | some n => .ok n
      | none => .error "ValueError: invalid literal for int() with base 10"
  | some _ => .error "AttributeError: object has no attribute split"
  | none => .ok 4

/-- `adapt(msg, to_version)`: derive the source version, look up the
registry, pass through when no adapter is registered for the pair. -/
def adapt (tok : String → Int → String) (dumps : JValue → Option String)
    (loads : String → Option JValue) (msg : Message) (to_version : Int) :
    Except String Message :=
  match sourceVersion msg with
  | .error e => .error e
  | .ok fv =>
    match (adaptersList tok dumps loads).find? (fun p => p.1 = (fv, to_version)) with
    | none => .ok msg
    | some p => p.2 msg

/-! ### Dictionary lemmas -/

theorem dget_append (d1 d2 : Dict) (k : String) :
    dget (d1 ++ d2) k = ((dget d1 k).orElse (fun _ => dget d2 k)) := by
  induction d1 with
  | nil => simp [dget]
  | cons p rest ih =>
      by_cases hp : p.1 = k <;> simp [dget, hp, ih]

theorem dget_dpop_ne (d : Dict) (k k2 : String) (h : k ≠ k2) :
    dget (dpop d k2) k = dget d k := by
  have h2 : ¬ k2 = k := fun he => h he.symm
  induction d with
  | nil => rfl
  | cons p rest ih =>
      by_cases hp : p.1 = k2
      · have : ¬ p.1 = k := by rw [hp]; exact h2
        simp [dpop, dget, hp, this, h2, ih]
      · by_cases hk : p.1 = k <;> simp [dpop, dget, hp, hk, h, h2, ih]

theorem dget_dreplace_self (d : Dict) (k : String) (v : JValue) (h : dmem d k = true) :
    dget (dreplace d k v) k = some v := by
  induction d with
  | nil => simp [dmem, dget] at h
  | cons p rest ih =>
      by_cases hp : p.1 = k
      · simp [dreplace, dget, hp]
      · simp only [dmem, dget, hp, if_false] at h
        simp [dreplace, dget, hp, ih h]

theorem dget_dset_self (d : Dict) (k : String) (v : JValue) :
    dget (dset d k v) k = some v := by
  unfold dset
  by_cases h : dmem d k = true
  · simp [h, dget_dreplace_self d k v h]
  · have hn : dget d k = none := by
      simp only [dmem, Option.isSome_iff_exists] at h
      cases hd : dget d k with
      | none => rfl
      | some v2 => exact absurd ⟨v2, hd⟩ h
    simp [h, dget_append, hn, dget]

theorem dget_dreplace_ne (d : Dict) (k k2 : String) (v : JValue) (h : k ≠ k2) :
    dget (dreplace d k2 v) k = dget d k := by
  induction d with
  | nil => rfl
  | cons p rest ih =>
      by_cases hp : p.1 = k2
      · have : ¬ p.1 = k := by rw [hp]; exact fun he => h he.symm
        have h2 : ¬ k2 = k := fun he => h he.symm
        simp [dreplace, dget, hp, this, h2, ih]
      · have h2 : ¬ k2 = k := fun he => h he.symm
        by_cases hk : p.1 = k <;> simp [dreplace, dget, hp, hk, h, h2, ih]

theorem dget_dset_ne (d : Dict) (k k2 : String) (v : JValue) (h : k ≠ k2) :
    dget (dset d k2 v) k = dget d k := by
  unfold dset
  by_cases hm : dmem d k2 = true
  · simp [hm, dget_dreplace_ne d k k2 v h]
  · have h2 : ¬ k2 = k := fun he => h he.symm
    simp [hm, dget_append, dget, h2]

theorem dget_dsetdefault_ne (d : Dict) (k k2 : String) (v : JValue) (h : k ≠ k2) :
    dget (dsetdefault d k2 v) k = dget d k := by
  unfold dsetdefault
  by_cases hm : dmem d k2 = true
  · simp [hm]
  · have h2 : ¬ k2 = k := fun he => h he.symm
    simp [hm, dget_append, dget, h2]

theorem dmem_of_dget (d : Dict) (k : String) (v : JValue) (h : dget d k = some v) :
    dmem d k = true := by
  simp [dmem, h]

/-! ### `splitlines` / `code_to_line` lemmas -/

theorem splitlinesAux_length_sum (cs acc : List Char) :
    ((splitlinesAux cs acc).map String.length).sum = cs.length + acc.length := by
  induction cs, acc using splitlinesAux.induct <;>
    (simp_all [splitlinesAux, String.length]; try omega)

theorem splitlinesAux_ne_nil (cs acc : List Char) (h : cs ≠ [] ∨ acc ≠ []) :
    splitlinesAux cs acc ≠ [] := by
  induction cs, acc using splitlinesAux.induct <;> simp_all [splitlinesAux]

theorem splitlinesTrue_length_sum (code : String) :
    (((splitlinesTrue code).map String.length).sum) = code.length := by
  simp [splitlinesTrue, splitlinesAux_length_sum]

theorem lastLine_cons_cons (l l2 : String) (rest : List String) :
    lastLine (l :: l2 :: rest) = lastLine (l2 :: rest) := by
  simp [lastLine]

theorem codeToLineAux_over (ls : List String) (pos : Int)
    (hne : ls ≠ []) (hp : (((ls.map String.length).sum : Nat) : Int) < pos) :
    codeToLineAux ls pos = some (lastLine ls, pos - ((ls.map String.length).sum : Nat)) := by
  induction ls generalizing pos with
  | nil => exact absurd rfl hne
  | cons l rest ih =>
      cases rest with
      | nil =>
          have hgt : pos > (l.length : Int) := by
            simp at hp; omega
          simp [codeToLineAux, lastLine, hgt]
      | cons l2 rest2 =>
          have hsum : ((((l :: l2 :: rest2).map String.length).sum : Nat) : Int)
              = (l.length : Int) + (((l2 :: rest2).map String.length).sum : Nat) := by
            push_cast [List.map_cons, List.sum_cons]
            ring
          have hgt : pos > (l.length : Int) := by
            rw [hsum] at hp
            have : (0 : Int) ≤ (((l2 :: rest2).map String.length).sum : Nat) := Int.ofNat_nonneg _
            omega
          have hp2 : ((((l2 :: rest2).map String.length).sum : Nat) : Int) < pos - l.length := by
            rw [hsum] at hp; omega
          have ihr := ih (pos - l.length) (by simp) hp2
          simp only [codeToLineAux, hgt, if_pos]
          rw [ihr, lastLine_cons_cons]
          congr 1
          rw [hsum]
          ring_nf

theorem codeToLineAux_mem (ls : List String) (pos : Int) (l : String) (p : Int)
    (h : codeToLineAux ls pos = some (l, p)) : l ∈ ls := by
  induction ls generalizing pos with
  | nil => simp [codeToLineAux] at h
  | cons x rest ih =>
      cases rest with
      | nil =>
          simp only [codeToLineAux] at h
          split at h <;> simp_all
      | cons y rest2 =>
          simp only [codeToLineAux] at h
          split at h
          · exact List.mem_cons_of_mem x (ih _ h)
          · simp only [Option.some.injEq, Prod.mk.injEq] at h
            simp [h.1]

theorem splitlinesTrue_ne_nil (code : String) (h : code ≠ "") :
    splitlinesTrue code ≠ [] := by
  apply splitlinesAux_ne_nil
  left
  intro hl
  apply h
  cases code with
  | mk data =>
      simp [String.toList] at hl
      simp [hl]

/-! ### Claim C4: `code_to_line` on offsets past the end of the text -/

/-- C4 (counterexample): the claim says an offset beyond the text length
yields the last line with a relative offset clamped into that line's range;
but `code_to_line "ab\ncd" 100` returns the last line `"cd"` with offset
`95`, far past the two characters of that line — the loop applies no bound
to the remainder. -/
theorem code_to_line_clamp_cex :
    code_to_line "ab\ncd" 100 = Except.ok ("cd", 95) ∧
      ¬ ((95 : Int) ≤ ((("cd" : String).length : Nat) : Int)) :=
  ⟨rfl, by decide⟩

/-- C4 (amended): for nonempty text, `code_to_line` always returns one of the
text's lines; when the offset exceeds the text length it returns the last
line together with the offset minus the whole text's length — an unclamped
remainder that may exceed the last line's length. -/
theorem code_to_line_overflow_unclamped (code : String) (pos : Int)
    (hne : code ≠ "") (hover : (code.length : Int) < pos) :
    code_to_line code pos =
      Except.ok (lastLine (splitlinesTrue code), pos - (code.length : Int))
    ∧ ∀ q l p, code_to_line code q = Except.ok (l, p) → l ∈ splitlinesTrue code := by
  constructor
  · have hne2 := splitlinesTrue_ne_nil code hne
    have hsum := splitlinesTrue_length_sum code
    have hover2 : ((((splitlinesTrue code).map String.length).sum : Nat) : Int) < pos := by
      rw [hsum]; exact hover
    unfold code_to_line
    rw [codeToLineAux_over _ _ hne2 hover2, hsum]
  · intro q l p hq
    cases hcl : codeToLineAux (splitlinesTrue code) q with
    | none => simp [code_to_line, hcl] at hq
    | some r =>
        simp [code_to_line, hcl] at hq
        rw [hq] at hcl
        exact codeToLineAux_mem _ q l p hcl

/-- C4 witness: the amended theorem applied at `"ab\ncd"`, offset `100`. -/
theorem code_to_line_overflow_unclamped_witness :
    code_to_line "ab\ncd" 100 =
      Except.ok (lastLine (splitlinesTrue "ab\ncd"), 100 - (("ab\ncd" : String).length : Int)) :=
  (code_to_line_overflow_unclamped "ab\ncd" 100 (by decide) (by decide)).1

/-! ### Claim C2: `complete_reply` (v5→v4) on the spec's example -/

/-- The spec's `complete_reply` example content. -/
def completeReplyExample : Dict :=
  [("matches", JValue.list [JValue.str "foobar", JValue.str "foobaz"]),
   ("cursor_start", JValue.int 3),
   ("cursor_end", JValue.int 6)]

/-- The content `V5toV4.complete_reply` actually produces on that example. -/
def completeReplyResult : Dict :=
  [("matches", JValue.list [JValue.str "foobar", JValue.str "foobaz"]),
   ("matched_text", JValue.str "foo")]

/-- C2 (counterexample): on `{matches:["foobar","foobaz"], cursor_start:3,
cursor_end:6}` the transform sets `matched_text` to `matches[0][:3] = "foo"`,
not `"bar"` as the claim states. -/
theorem complete_reply_matched_text_cex :
    ¬ ((V5toV4.complete_reply completeReplyExample).toOption.bind
        (fun d => dgetStr d "matched_text") = some "bar") := by
  decide

/-- C2 (amended): on that example the result binds `matched_text` to `"foo"`
(the first match truncated to `cursor_end - cursor_start` characters), and
`cursor_start`, `cursor_end` and `metadata` are absent from the result. -/
theorem complete_reply_matched_text_amended :
    V5toV4.complete_reply completeReplyExample = Except.ok completeReplyResult
    ∧ dgetStr completeReplyResult "matched_text" = some "foo"
    ∧ dmem completeReplyResult "cursor_start" = false
    ∧ dmem completeReplyResult "cursor_end" = false
    ∧ dmem completeReplyResult "metadata" = false :=
  ⟨rfl, rfl, rfl, rfl, rfl⟩

/-! ### Claim C3: `kernel_info_reply` (v5→v4) with `implementation == "ipython"` -/

/-- A v5 `kernel_info_reply` content with `implementation == "ipython"` and
an `implementation_version` key. -/
def kernelInfoReplyIpython : Dict :=
  [("implementation", JValue.str "ipython"),
   ("implementation_version", JValue.str "2.1.0"),
   ("language", JValue.str "python")]

/-- C3: whenever `implementation == "ipython"` and `implementation_version`
is present (and no key of the misspelled name `implmentation_version`
exists), `content.pop('implmentation_version')` raises `KeyError` instead of
completing the rename to `ipython_version` that the claim describes. -/
theorem kernel_info_reply_misspelled_pop :
    V5toV4.kernel_info_reply kernelInfoReplyIpython =
      Except.error "KeyError: implmentation_version" := rfl

/-! ### Claim C5: the version-string round trip -/

/-- C5 (counterexample): `"05"` is a numeric segment, so the claim says the
round trip returns it unchanged; but `int("05") = 5` and joining gives
`"5"`. -/
theorem version_round_trip_cex :
    ¬ (joinVersionList (_version_str_to_list "05") = removeNonNumericSegments "05") := by
  decide

/-- C5 (amended): the round trip equals "the string with its non-numeric
dot-separated segments removed" exactly when every numeric segment is
written canonically (no leading zeros, sign or whitespace); in general the
numeric segments are normalised to their canonical decimal form. -/
theorem version_round_trip_amended (s : String)
    (h : (pySplit s '.').all (fun part =>
        match pyIntParse part with
        | some n => toString n == part
        | none => true) = true) :
    joinVersionList (_version_str_to_list s) = removeNonNumericSegments s := by
  have key : ∀ (parts : List String),
      parts.all (fun part => match pyIntParse part with
        | some n => toString n == part
        | none => true) = true →
      (parts.filterMap pyIntParse).map toString
        = parts.filter (fun part => (pyIntParse part).isSome) := by
    intro parts hall
    induction parts with
    | nil => rfl
    | cons p rest ih =>
        rw [List.all_cons, Bool.and_eq_true] at hall
        obtain ⟨h1, h2⟩ := hall
        cases hp : pyIntParse p with
        | none => simp [hp, ih h2]
        | some n =>
            rw [hp] at h1
            have htp : toString n = p := by
              simpa using h1
            simp [hp, ih h2, htp]
  unfold joinVersionList removeNonNumericSegments _version_str_to_list
  rw [key (pySplit s '.') h]

/-- C5 witness: the amended round trip at the spec's example `"5.0.dev"`. -/
theorem version_round_trip_amended_witness :
    joinVersionList (_version_str_to_list "5.0.dev") = removeNonNumericSegments "5.0.dev" :=
  version_round_trip_amended "5.0.dev" (by decide)

/-! ### Shared concrete parameter instances for witnesses -/

/-- A concrete stand-in for the external token resolver. -/
def tok0 : String → Int → String := fun _ _ => ""

/-- A `json.dumps` behaviour that fails on every value. -/
def dumps0 : JValue → Option String := fun _ => none

/-- A `json.loads` behaviour that fails on every string. -/
def loads0 : String → Option JValue := fun _ => none

/-- `Except.ok` bound into a continuation reduces to the continuation. -/
theorem bind_ok_eq {α β : Type} (a : α) (f : α → Except String β) :
    (Except.ok a >>= f) = f a := rfl

/-! ### Claim C1: replies with `status` `error`/`aborted` -/

/-- C1: for any adapter pipeline, whenever the (post-rename) message type has
a registered content transform and the content's `status` is `"error"` or
`"aborted"`, `Adapter.__call__` does not return the message with its content
unchanged: the call into `handle_reply_status_error` — defined without
`self` — raises `TypeError`, so the whole call raises instead of returning. -/
theorem reply_status_error_raises
    (uh : Message → Message) (tm : List (String × String))
    (hs : List (String × (Dict → Except String Dict))) (msg : Message) (t : String)
    (ht : dget (uh msg).header "msg_type" = some (JValue.str t))
    (hh : (hs.find? (fun p => p.1 = applyRename tm t)).isSome = true)
    (hst : dget (uh msg).content "status" = some (JValue.str "error") ∨
           dget (uh msg).content "status" = some (JValue.str "aborted")) :
    Adapter.call uh tm hs msg =
      .error "TypeError: handle_reply_status_error() takes 1 positional argument but 2 were given" := by
  obtain ⟨f, hf⟩ := Option.isSome_iff_exists.mp hh
  unfold Adapter.call Adapter.update_msg_type
  rw [ht]
  dsimp only
  cases hl : lookupRename tm t with
  | some t2 =>
      have hap : applyRename tm t = t2 := by simp [applyRename, hl]
      rw [hap] at hf
      dsimp only
      rw [dget_dset_self]
      try dsimp only
      rw [hf]
      try dsimp only
      rcases hst with hst | hst <;> rw [hst] <;> rfl
  | none =>
      have hap : applyRename tm t = t := by simp [applyRename, hl]
      rw [hap] at hf
      dsimp only
      rw [ht]
      try dsimp only
      rw [hf]
      try dsimp only
      rcases hst with hst | hst <;> rw [hst] <;> rfl

/-- A v5 `execute_reply` whose content reports `status: "error"`. -/
def statusErrorMsg : Message :=
  { header := [("msg_type", JValue.str "execute_reply")],
    content := [("status", JValue.str "error")],
    metadata := [],
    msgType := some (JValue.str "execute_reply") }

/-- C1 witness: the `V5toV4` pipeline on a `status: "error"` `execute_reply`. -/
theorem reply_status_error_raises_witness :
    Adapter.call V5toV4.update_header V5toV4.msg_type_map
        (V5toV4.handlers tok0 dumps0) statusErrorMsg =
      .error "TypeError: handle_reply_status_error() takes 1 positional argument but 2 were given" :=
  reply_status_error_raises V5toV4.update_header V5toV4.msg_type_map
    (V5toV4.handlers tok0 dumps0) statusErrorMsg "execute_reply" rfl rfl (Or.inl rfl)

/-! ### Claim C6: `adapt` on unregistered version pairs -/

/-- C6: whenever the source major version derived from the header pairs with
the target version to a key outside the registry (which holds only `(5,4)`
and `(4,5)`) — including same-version pairs — `adapt` returns the message
with no fields altered. -/
theorem adapt_unregistered_pair
    (tok : String → Int → String) (dumps : JValue → Option String)
    (loads : String → Option JValue) (msg : Message) (fv tv : Int)
    (hv : sourceVersion msg = .ok fv)
    (h54 : ¬ (fv = 5 ∧ tv = 4)) (h45 : ¬ (fv = 4 ∧ tv = 5)) :
    adapt tok dumps loads msg tv = .ok msg := by
  unfold adapt
  rw [hv]
  dsimp only
  have hfind : (adaptersList tok dumps loads).find? (fun p => p.1 = (fv, tv)) = none := by
    rw [List.find?_eq_none]
    intro x hx
    simp only [adaptersList, List.mem_cons, List.not_mem_nil, or_false] at hx
    rcases hx with h | h <;> subst h <;>
      simp only [decide_eq_true_eq, Prod.mk.injEq] <;> intro he
    · exact h54 ⟨he.1.symm, he.2.symm⟩
    · exact h45 ⟨he.1.symm, he.2.symm⟩
  rw [hfind]

/-- A v5 message, to be adapted to the (registry-absent) pair `(5,5)`. -/
def sameVersionMsg : Message :=
  { header := [("version", JValue.str "5.0"), ("msg_type", JValue.str "execute_request")],
    content := [],
    metadata := [],
    msgType := some (JValue.str "execute_request") }

/-- C6 witness: a same-version pair `(5,5)` passes the message through. -/
theorem adapt_unregistered_pair_witness :
    adapt tok0 dumps0 loads0 sameVersionMsg 5 = .ok sameVersionMsg :=
  adapt_unregistered_pair tok0 dumps0 loads0 sameVersionMsg 5 5 rfl
    (by decide) (by decide)

/-! ### Claim C10: `adapt` on unparsable `header['version']` -/

/-- C10: when the header has a `version` key whose leading dot-separated
segment `int()` rejects, `adapt` raises `ValueError` for every target
version instead of passing the message through or falling back to the
legacy default. -/
theorem adapt_bad_version_raises
    (tok : String → Int → String) (dumps : JValue → Option String)
    (loads : String → Option JValue) (msg : Message) (s : String)
    (hv : dget msg.header "version" = some (JValue.str s))
    (hp : pyIntParse ((pySplit s '.').headD "") = none) :
    ∀ tv, adapt tok dumps loads msg tv =
      .error "ValueError: invalid literal for int() with base 10" := by
  intro tv
  unfold adapt sourceVersion
  rw [hv]
  dsimp only
  rw [hp]

/-- A message declaring the unparsable version `"dev.5"`. -/
def badVersionMsg : Message :=
  { header := [("version", JValue.str "dev.5"), ("msg_type", JValue.str "execute_request")],
    content := [],
    metadata := [],
    msgType := some (JValue.str "execute_request") }

/-- C10 witness: `version: "dev.5"` raises at target version 5. -/
theorem adapt_bad_version_raises_witness :
    adapt tok0 dumps0 loads0 badVersionMsg 5 =
      .error "ValueError: invalid literal for int() with base 10" :=
  adapt_bad_version_raises tok0 dumps0 loads0 badVersionMsg "dev.5" rfl rfl 5

/-! ### Claim C9: `display_data` JSON failures are non-fatal -/

/-- C9: in both directions, when the `application/json` entry's
serialization (`dumps`) or parse (`loads`) fails, the failure is swallowed:
the transform still returns the message, the `application/json` value and
every other field being exactly as the non-JSON step (the `source`
default/drop) leaves them. -/
theorem display_data_json_failure
    (dumps : JValue → Option String) (loads : String → Option JValue)
    (c d : Dict) (v : JValue) (s : String) :
    ((dget c "data" = some (JValue.obj d)) → (dget d "application/json" = some v) →
      dumps v = none →
      V5toV4.display_data dumps c = .ok (dsetdefault c "source" (JValue.str "display")))
    ∧ ((dget c "data" = some (JValue.obj d)) →
      (dget d "application/json" = some (JValue.str s)) →
      loads s = none →
      V4toV5.display_data loads c = .ok (dpop c "source")) := by
  have hne : ("data" : String) ≠ "source" := by decide
  constructor
  · intro h1 h2 h3
    unfold V5toV4.display_data
    have h1b : dget (dsetdefault c "source" (JValue.str "display")) "data"
        = some (JValue.obj d) := by
      rw [dget_dsetdefault_ne _ _ _ _ hne]; exact h1
    have hm : dmem d "application/json" = true := dmem_of_dget _ _ _ h2
    simp only [dgetE, h1b, bind_ok_eq, hm, if_true, h2, h3]
  · intro h1 h2 h3
    unfold V4toV5.display_data
    have h1b : dget (dpop c "source") "data" = some (JValue.obj d) := by
      rw [dget_dpop_ne _ _ _ hne]; exact h1
    have hm : dmem d "application/json" = true := dmem_of_dget _ _ _ h2
    simp only [dgetE, h1b, bind_ok_eq, hm, if_true, h2, h3]

/-- A `display_data` content whose `application/json` entry defeats the
failing `dumps0`/`loads0`. -/
def displayDataJsonContent : Dict :=
  [("data", JValue.obj [("application/json", JValue.str "bad json")])]

/-- C9 witness: both directions on the concrete content, with always-failing
serialization and parse. -/
theorem display_data_json_failure_witness :
    V5toV4.display_data dumps0 displayDataJsonContent =
      .ok (dsetdefault displayDataJsonContent "source" (JValue.str "display"))
    ∧ V4toV5.display_data loads0 displayDataJsonContent =
      .ok (dpop displayDataJsonContent "source") :=
  ⟨(display_data_json_failure dumps0 loads0 displayDataJsonContent
      [("application/json", JValue.str "bad json")] (JValue.str "bad json") "bad json").1
      rfl rfl rfl,
   (display_data_json_failure dumps0 loads0 displayDataJsonContent
      [("application/json", JValue.str "bad json")] (JValue.str "bad json") "bad json").2
      rfl rfl rfl⟩

/-! ### Claim C8: `inspect_reply` (v4→v5) -/

/-- Modelled from the spec's words: the first non-empty string among the
given keys (values hypothesised to be strings where present). -/
def firstNonEmptyStr (c : Dict) : List String → Option String
  | [] => none
  | k :: rest =>
      match dget c k with
      | some (JValue.str s) => if s = "" then firstNonEmptyStr c rest else some s
      | _ => firstNonEmptyStr c rest

/-- Modelled from the spec's words: `data["text/plain"]` is the first
non-empty of the definition keys followed by the first non-empty of the
docstring keys, joined by a newline; the placeholder when neither group
yields a value. -/
def inspectSpecText (c : Dict) : String :=
  match firstNonEmptyStr c V4toV5.inspectDefKeys,
        firstNonEmptyStr c V4toV5.inspectDocKeys with
  | none, none => "<empty docstring>"
  | some a, none => a
  | none, some b => b
  | some a, some b => a ++ "\n" ++ b

/-- When every present value among `keys` is a string, the code's
truthiness-and-break loop picks exactly the spec's first non-empty string. -/
theorem firstTruthy_eq_firstNonEmptyStr (c : Dict) (keys : List String)
    (h : keys.all (fun k => match dget c k with
        | some (JValue.str _) => true
        | none => true
        | some _ => false) = true) :
    V4toV5.firstTruthy c keys = (firstNonEmptyStr c keys).map JValue.str := by
  induction keys with
  | nil => rfl
  | cons k rest ih =>
      rw [List.all_cons, Bool.and_eq_true] at h
      obtain ⟨h1, h2⟩ := h
      cases hk : dget c k with
      | none => simp [V4toV5.firstTruthy, firstNonEmptyStr, hk, ih h2]
      | some v =>
          rw [hk] at h1
          cases v with
          | str s =>
              by_cases hs : s = ""
              · simp [V4toV5.firstTruthy, firstNonEmptyStr, hk, hs, truthy, ih h2]
              · simp [V4toV5.firstTruthy, firstNonEmptyStr, hk, hs, truthy]
          | null => simp at h1
          | bool b => simp at h1
          | int n => simp at h1
          | list xs => simp at h1
          | obj d => simp at h1

/-- C8: on a v4 `inspect_reply` content whose `found` is `True`, whose
`name` is present, and whose definition/docstring keys hold strings where
present, the v4→v5 transform returns exactly
`{status:"ok", found, name, data:{text/plain:…}, metadata:{}}` with the
text built as the spec describes (first non-empty of each group joined by a
newline, placeholder when both groups are empty). -/
theorem inspect_reply_v4_to_v5 (c : Dict) (nm : JValue)
    (hf : dget c "found" = some (JValue.bool true))
    (hn : dget c "name" = some nm)
    (hstr : (V4toV5.inspectDefKeys ++ V4toV5.inspectDocKeys).all (fun k =>
        match dget c k with
        | some (JValue.str _) => true
        | none => true
        | some _ => false) = true) :
    V4toV5.inspect_reply c =
      .ok [("status", JValue.str "ok"), ("found", JValue.bool true), ("name", nm),
           ("data", JValue.obj [("text/plain", JValue.str (inspectSpecText c))]),
           ("metadata", JValue.obj [])] := by
  rw [List.all_append, Bool.and_eq_true] at hstr
  obtain ⟨hd, hdoc⟩ := hstr
  unfold V4toV5.inspect_reply
  simp only [dgetE, hf, hn, bind_ok_eq]
  rw [firstTruthy_eq_firstNonEmptyStr c _ hd, firstTruthy_eq_firstNonEmptyStr c _ hdoc]
  unfold inspectSpecText
  cases hA : firstNonEmptyStr c V4toV5.inspectDefKeys with
  | none =>
      cases hB : firstNonEmptyStr c V4toV5.inspectDocKeys with
      | none => simp only [truthy, strValues]; rfl
      | some b => simp only [truthy, strValues]; rfl
  | some a =>
      cases hB : firstNonEmptyStr c V4toV5.inspectDocKeys with
      | none => simp only [truthy, strValues]; rfl
      | some b => simp only [truthy, strValues]; rfl

/-- The spec's `inspect_reply` example content. -/
def inspectReplyExample : Dict :=
  [("found", JValue.bool true), ("name", JValue.str "f"),
   ("definition", JValue.str "f(x)"), ("docstring", JValue.str "does a thing")]

/-- C8 witness: `found=true, definition="f(x)", docstring="does a thing"`
gives `data["text/plain"] == "f(x)\ndoes a thing"`. -/
theorem inspect_reply_v4_to_v5_witness :
    V4toV5.inspect_reply inspectReplyExample =
      .ok [("status", JValue.str "ok"), ("found", JValue.bool true),
           ("name", JValue.str "f"),
           ("data", JValue.obj [("text/plain", JValue.str "f(x)\ndoes a thing")]),
           ("metadata", JValue.obj [])] :=
  inspect_reply_v4_to_v5 inspectReplyExample (JValue.str "f") rfl rfl rfl

/-! ### Claim C7: header/top-level `msg_type` stay in sync -/

/-- The rename table of a registered adapter direction. -/
def dirMap : Direction → List (String × String)
  | .v5to4 => V5toV4.msg_type_map
  | .v4to5 => V4toV5.msg_type_map

/-- Pipeline-level sync lemma: for any adapter whose `update_header` touches
neither the header's `msg_type` entry nor the top-level copy (true of both
directions), a completed run leaves the two copies in sync (when they were
in sync before) and the header's `msg_type` is exactly the renamed original
— no other pipeline step changes either copy. -/
theorem Adapter.call_msg_type
    (uh : Message → Message) (tm : List (String × String))
    (hs : List (String × (Dict → Except String Dict))) (msg msg2 : Message)
    (huh1 : dget (uh msg).header "msg_type" = dget msg.header "msg_type")
    (huh2 : (uh msg).msgType = msg.msgType)
    (hrun : Adapter.call uh tm hs msg = .ok msg2)
    (hsync : msg.msgType = dget msg.header "msg_type") :
    msg2.msgType = dget msg2.header "msg_type"
    ∧ dget msg2.header "msg_type" = renameJ tm (dget msg.header "msg_type") := by
  unfold Adapter.call Adapter.update_msg_type at hrun
  cases hm : dget (uh msg).header "msg_type" with
  | none => rw [hm] at hrun; cases hrun
  | some v =>
      rw [hm] at hrun
      have hmsg : dget msg.header "msg_type" = some v := by rw [← huh1, hm]
      cases v with
      | str t =>
          dsimp only at hrun
          cases hl : lookupRename tm t with
          | some t2 =>
              rw [hl] at hrun
              dsimp only at hrun
              rw [dget_dset_self] at hrun
              dsimp only at hrun
              cases hfind : (hs.find? (fun p => p.1 = t2)).map (fun p => p.2) with
              | none =>
                  rw [hfind] at hrun
                  dsimp only at hrun
                  cases hrun
                  constructor
                  · rw [dget_dset_self]
                  · rw [dget_dset_self, hmsg]
                    simp [renameJ, applyRename, hl]
              | some f =>
                  rw [hfind] at hrun
                  dsimp only at hrun
                  split at hrun
                  · cases hrun
                  · cases hrun
                  · cases hfc : f (uh msg).content with
                    | error e => rw [hfc] at hrun; cases hrun
                    | ok c2 =>
                        rw [hfc] at hrun
                        dsimp only [Except.map] at hrun
                        cases hrun
                        constructor
                        · rw [dget_dset_self]
                        · rw [dget_dset_self, hmsg]
                          simp [renameJ, applyRename, hl]
          | none =>
              rw [hl] at hrun
              dsimp only at hrun
              rw [hm] at hrun
              dsimp only at hrun
              cases hfind : (hs.find? (fun p => p.1 = t)).map (fun p => p.2) with
              | none =>
                  rw [hfind] at hrun
                  dsimp only at hrun
                  cases hrun
                  constructor
                  · rw [hm, huh2, hsync, hmsg]
                  · rw [hm, hmsg]
                    simp [renameJ, applyRename, hl]
              | some f =>
                  rw [hfind] at hrun
                  dsimp only at hrun
                  split at hrun
                  · cases hrun
                  · cases hrun
                  · cases hfc : f (uh msg).content with
                    | error e => rw [hfc] at hrun; cases hrun
                    | ok c2 =>
                        rw [hfc] at hrun
                        dsimp only [Except.map] at hrun
                        cases hrun
                        constructor
                        · rw [hm, huh2, hsync, hmsg]
                        · rw [hm, hmsg]
                          simp [renameJ, applyRename, hl]
      | null =>
          dsimp only at hrun
          rw [hm] at hrun
          dsimp only at hrun
          cases hrun
      | bool b =>
          dsimp only at hrun
          rw [hm] at hrun
          dsimp only at hrun
          cases hrun
      | int n =>
          dsimp only at hrun
          rw [hm] at hrun
          dsimp only at hrun
          cases hrun
      | list xs => dsimp only at hrun; cases hrun
      | obj d => dsimp only at hrun; cases hrun

/-- C7: after either directional adapter runs to completion on a message
whose two `msg_type` copies agree, they agree afterwards; the header's
`msg_type` is exactly the rename-table image of the original (both copies
renamed together, untouched by every other step). -/
theorem msg_type_sync
    (dir : Direction) (tok : String → Int → String)
    (dumps : JValue → Option String) (loads : String → Option JValue)
    (msg msg2 : Message)
    (hrun : runAdapter dir tok dumps loads msg = .ok msg2)
    (hsync : msg.msgType = dget msg.header "msg_type") :
    msg2.msgType = dget msg2.header "msg_type"
    ∧ dget msg2.header "msg_type" = renameJ (dirMap dir) (dget msg.header "msg_type") := by
  cases dir with
  | v5to4 =>
      dsimp only [runAdapter, V5toV4.call] at hrun
      exact Adapter.call_msg_type V5toV4.update_header V5toV4.msg_type_map
        (V5toV4.handlers tok dumps) msg msg2
        (dget_dpop_ne _ _ _ (by decide)) rfl hrun hsync
  | v4to5 =>
      dsimp only [runAdapter, V4toV5.call] at hrun
      exact Adapter.call_msg_type V4toV5.update_header V4toV5.msg_type_map
        (V4toV5.handlers loads) msg msg2
        (dget_dset_ne _ _ _ _ (by decide)) rfl hrun hsync

/-- A v5 `error` broadcast whose two `msg_type` copies agree. -/
def syncWitnessMsg : Message :=
  { header := [("msg_type", JValue.str "error")],
    content := [],
    metadata := [],
    msgType := some (JValue.str "error") }

/-- What `V5toV4` produces on it: both copies renamed to `pyerr` together. -/
def syncResultMsg : Message :=
  { header := [("msg_type", JValue.str "pyerr")],
    content := [],
    metadata := [],
    msgType := some (JValue.str "pyerr") }

/-- C7 witness: the `V5toV4` run on the `error` broadcast keeps the copies
in sync and renames both to `pyerr`. -/
theorem msg_type_sync_witness :
    syncResultMsg.msgType = dget syncResultMsg.header "msg_type"
    ∧ dget syncResultMsg.header "msg_type"
        = renameJ (dirMap Direction.v5to4) (dget syncWitnessMsg.header "msg_type") :=
  msg_type_sync Direction.v5to4 tok0 dumps0 loads0 syncWitnessMsg syncResultMsg rfl rfl
